import Mathlib

/-!
Shallow embedding of the evaluation-and-ranking pipeline of the Voyager-4
repository, covering `src/cognee_framework/evaluation/base_evaluator.py`
(the metric evaluators and the summary aggregator) and
`src/cognee_framework/evaluation/comparative_evaluator.py` (the pairwise
statistical comparator, the weighted ranking and the recommendation engine),
together with theorems settling the specification claims about them.

Modelling conventions:
* Python dictionaries with a fixed set of possible keys become structures
  whose fields are `Option`-valued; `none` models an absent key.
* Python floats become rationals (`ℚ`); the arithmetic the code performs on
  them (sums, means, divisions, comparisons) is exact here.
* External library calls that are not code of this repository — the
  Anthropic completion client, the sentence-embedding model, `numpy`'s
  square-root norm, `scipy`'s statistical tests, the rouge scorer — enter
  as explicit oracle parameters.  An oracle returning `none` models the
  library call raising, which the surrounding `try/except` in the source
  observes and recovers from.
-/

namespace Voyager

/-- One response record, as produced by the completion loop of
`PromptEvaluator.evaluate_prompt` (base_evaluator.py, lines 90-109):
`output` is the completion text (or a diagnostic message when `error` is
set), `expected` is the optional reference answer copied from the test
case, and `error` marks a failed completion call. -/
structure Response where
  output : String
  expected : Option String := none
  error : Bool := false
deriving DecidableEq, Repr

/-- Python truthiness of `resp.get("expected")`: the key is present and
holds a non-empty string. -/
def Response.hasExpected (r : Response) : Bool :=
  match r.expected with
  | some e => e ≠ ""
  | none => false

/-- Model of Python `str.lower()`: lowercase each character. -/
def pyLower (s : String) : String :=
  ⟨s.data.map Char.toLower⟩

/-- Model of Python `str.strip()`: drop leading and trailing whitespace. -/
def pyStrip (s : String) : String :=
  ⟨((s.data.dropWhile Char.isWhitespace).reverse.dropWhile Char.isWhitespace).reverse⟩

/-- The per-record comparison of `_evaluate_exact_match`
(base_evaluator.py, line 181):
`resp["output"].strip().lower() == resp["expected"].strip().lower()`. -/
def Response.outputMatches (r : Response) : Bool :=
  match r.expected with
  | some e => pyLower (pyStrip r.output) == pyLower (pyStrip e)
  | none => false

/-- A metric-result dictionary as returned by the evaluators of
base_evaluator.py.  Each field models one key the evaluators may set;
`none` models the key being absent from the returned dictionary. -/
structure MetricResult where
  accuracy : Option ℚ := none
  correct : Option ℕ := none
  total : Option ℕ := none
  errors : Option ℕ := none
  meets_threshold : Option Bool := none
  consistency_score : Option ℚ := none
  total_comparisons : Option ℕ := none
  note : Option String := none
  average_quality : Option ℚ := none
  quality_scores : Option (List ℕ) := none
  total_evaluated : Option ℕ := none
  avg_rouge1 : Option ℚ := none
  avg_rouge2 : Option ℚ := none
  avg_rougeL : Option ℚ := none
deriving DecidableEq, Repr

/-- The counting loop of `_evaluate_exact_match` (base_evaluator.py,
lines 170-183), returning `(correct, total, errors)`: error records only
bump the error count; records whose `expected` is truthy are counted in
`total` and, when the stripped-lowercased strings agree, in `correct`. -/
def exactMatchCounts : List Response → ℕ × ℕ × ℕ
  | [] => (0, 0, 0)
  | r :: rs =>
    let rest := exactMatchCounts rs
    if r.error then (rest.1, rest.2.1, rest.2.2 + 1)
    else if r.hasExpected then
      (rest.1 + (if r.outputMatches then 1 else 0), rest.2.1 + 1, rest.2.2)
    else rest

/-- `_evaluate_exact_match` (base_evaluator.py, lines 168-192):
`accuracy = correct / total if total > 0 else 0`, and
`meets_threshold = accuracy >= accuracy_threshold`. -/
def evaluateExactMatch (accuracy_threshold : ℚ) (responses : List Response) :
    MetricResult :=
  let c := exactMatchCounts responses
  let accuracy : ℚ := if c.2.1 > 0 then (c.1 : ℚ) / (c.2.1 : ℚ) else 0
  { accuracy := some accuracy
    correct := some c.1
    total := some c.2.1
    errors := some c.2.2
    meets_threshold := some (decide (accuracy ≥ accuracy_threshold)) }

/-- The default `accuracy_threshold` from `_load_config`
(base_evaluator.py, line 51). -/
def accuracyThresholdDefault : ℚ := 85 / 100

/-- All unordered pairs `(l[i], l[j])` with `i < j`, in the order of the
double loop `for i in range(n): for j in range(i+1, n)`. -/
def orderedPairs {α : Type} : List α → List (α × α)
  | [] => []
  | x :: xs => (xs.map fun y => (x, y)) ++ orderedPairs xs

/-- `np.dot` on rational vectors. -/
def dotProduct (u v : List ℚ) : ℚ :=
  (List.zipWith (· * ·) u v).sum

/-- The degenerate dictionary `_evaluate_consistency` returns for fewer
than two non-error outputs (base_evaluator.py, line 200) — in particular
it has no `meets_threshold` key. -/
def insufficientConsistency : MetricResult :=
  { consistency_score := some 0
    note := some "Insufficient responses for consistency check" }

/-- `_evaluate_consistency` (base_evaluator.py, lines 194-220).  The
sentence-embedding model and `np.linalg.norm` (a floating-point square
root) are external code and enter as the oracles `encode` and `norm`.
With fewer than two non-error outputs the degenerate
`insufficientConsistency` dictionary is returned.  Otherwise the mean over
the pairwise cosine similarities `np.dot(ei, ej) / (norm ei * norm ej)` is
reported against the threshold. -/
def evaluateConsistency (encode : List String → List (List ℚ))
    (norm : List ℚ → ℚ) (consistency_threshold : ℚ)
    (responses : List Response) : MetricResult :=
  let outputs := (responses.filter fun r => !r.error).map Response.output
  if outputs.length < 2 then
    insufficientConsistency
  else
    let embeddings := encode outputs
    let similarities := (orderedPairs embeddings).map
      fun p => dotProduct p.1 p.2 / (norm p.1 * norm p.2)
    let avg := similarities.sum / (similarities.length : ℚ)
    { consistency_score := some avg
      total_comparisons := some similarities.length
      meets_threshold := some (decide (avg ≥ consistency_threshold)) }

/-- `_evaluate_rouge` (base_evaluator.py, lines 279-301).  The stemmed
rouge scorer is external code and enters as the oracle `score`, mapping a
(reference, candidate) pair to the rouge-1/2/L f-measures.  Records with
an error or without a truthy `expected` are skipped; each average is 0
when no record was scored.  The returned dictionary never contains a
`meets_threshold` key. -/
def evaluateRouge (score : String → String → ℚ × ℚ × ℚ)
    (responses : List Response) : MetricResult :=
  let scored := responses.filter fun r => !r.error && r.hasExpected
  let f := fun (r : Response) => score (r.expected.getD "") r.output
  let r1 := scored.map fun r => (f r).1
  let r2 := scored.map fun r => (f r).2.1
  let rL := scored.map fun r => (f r).2.2
  let avg := fun (l : List ℚ) => if l.length > 0 then l.sum / (l.length : ℚ) else 0
  { avg_rouge1 := some (avg r1)
    avg_rouge2 := some (avg r2)
    avg_rougeL := some (avg rL)
    total_evaluated := some r1.length }

/-- The summary dictionary built by `_generate_summary`. -/
structure Summary where
  overall_status : String
  failed_criteria : List String
  recommendations : List String
deriving DecidableEq, Repr

/-- Association-list lookup, modelling Python dict access on the
per-method results map (first binding wins, as dict keys are unique). -/
def lookupResult (results : List (String × MetricResult)) (k : String) :
    Option MetricResult :=
  (results.find? fun p => p.1 == k).map Prod.snd

/-- One iteration of the threshold-checking loop of `_generate_summary`
(base_evaluator.py, lines 312-316): a result carrying
`meets_threshold = false` flips the status to FAIL and appends its method
name; a result whose `meets_threshold` key is absent or true leaves the
accumulator unchanged. -/
def summaryStep (acc : String × List String) (p : String × MetricResult) :
    String × List String :=
  match p.2.meets_threshold with
  | some false => ("FAIL", acc.2 ++ [p.1])
  | _ => acc

/-- The threshold-checking loop of `_generate_summary`, starting from the
initial `PASS` status. -/
def summaryFold (results : List (String × MetricResult)) :
    String × List String :=
  results.foldl summaryStep ("PASS", [])

/-- One recommendation rule of `_generate_summary` (base_evaluator.py,
lines 319-326): fires on
`method in results and not results[method].get("meets_threshold", True)`. -/
def recommendationFor (results : List (String × MetricResult))
    (method msg : String) : List String :=
  match lookupResult results method with
  | some r => if (r.meets_threshold.getD true) = false then [msg] else []
  | none => []

/-- `_generate_summary` (base_evaluator.py, lines 303-328). -/
def generateSummary (results : List (String × MetricResult)) : Summary :=
  let folded := summaryFold results
  { overall_status := folded.1
    failed_criteria := folded.2
    recommendations :=
      recommendationFor results "exact_match" "Improve prompt clarity and specificity" ++
      recommendationFor results "consistency" "Add examples to improve output consistency" ++
      recommendationFor results "quality" "Enhance prompt with better context and instructions" }

/-! Embedding of comparative_evaluator.py. -/

/-- The per-variant metric dictionary built by the extraction loop of
`_perform_statistical_comparison` (comparative_evaluator.py,
lines 136-156).  Each field is present exactly when the corresponding
evaluation method appears in that variant's results map. -/
structure PromptMetrics where
  accuracy : Option ℚ := none
  correct_count : Option ℕ := none
  total_count : Option ℕ := none
  consistency_score : Option ℚ := none
  average_quality : Option ℚ := none
  quality_scores : Option (List ℕ) := none
deriving DecidableEq, Repr

/-- The metric extraction from one prompt's evaluation results
(comparative_evaluator.py, lines 141-154): each group of keys is set
exactly when the method's result is present, with `.get(key, default)`
reads inside. -/
def extractMetrics (eval_results : List (String × MetricResult)) :
    PromptMetrics :=
  let em := lookupResult eval_results "exact_match"
  let cons := lookupResult eval_results "consistency"
  let qual := lookupResult eval_results "quality"
  { accuracy := em.map fun r => r.accuracy.getD 0
    correct_count := em.map fun r => r.correct.getD 0
    total_count := em.map fun r => r.total.getD 0
    consistency_score := cons.map fun r => r.consistency_score.getD 0
    average_quality := qual.map fun r => r.average_quality.getD 0
    quality_scores := qual.map fun r => r.quality_scores.getD [] }

/-- One entry of the `metrics_comparison` map of `_compare_two_prompts`;
`none` fields model absent keys.  The `winner` key is only ever set by the
accuracy and quality comparisons; the consistency comparison sets
`descriptive_winner` instead. -/
structure ComparisonEntry where
  prompt_a_value : ℚ
  prompt_b_value : ℚ
  difference : ℚ
  p_value : Option ℚ := none
  statistically_significant : Option Bool := none
  winner : Option String := none
  descriptive_winner : Option String := none
deriving DecidableEq, Repr

/-- The pairwise-comparison dictionary returned by
`_compare_two_prompts`. -/
structure Comparison where
  prompt_a : String
  prompt_b : String
  metrics_comparison : List (String × ComparisonEntry)
  overall_winner : String
  significant_differences : List String
deriving DecidableEq, Repr

/-- `np.mean` on an integer score list, as a rational. -/
def listMean (l : List ℕ) : ℚ :=
  (l.sum : ℚ) / (l.length : ℚ)

/-- The accuracy block of `_compare_two_prompts` (comparative_evaluator.py,
lines 208-237).  `chi2` is the external `scipy.stats.chi2_contingency`
oracle on the 2x2 contingency table; `none` models the call raising, which
the `except` branch at line 236 recovers from by omitting the metric.
The outer `Option` is `none` exactly when Python would raise an uncaught
`KeyError`: the table literal (lines 215-218) reads
`metrics_b["correct_count"]` and `metrics_b["total_count"]` outside the
`try` after checking those keys only on `metrics_a`. -/
def accuracyComparison (chi2 : List (List ℤ) → Option ℚ)
    (significance_level : ℚ) (metrics_a metrics_b : PromptMetrics)
    (prompt_a prompt_b : String) :
    Option (List (String × ComparisonEntry) × List String) :=
  match metrics_a.accuracy, metrics_b.accuracy with
  | some acc_a, some acc_b =>
    match metrics_a.correct_count, metrics_a.total_count with
    | some ca, some ta =>
      match metrics_b.correct_count, metrics_b.total_count with
      | some cb, some tb =>
        let contingency_table : List (List ℤ) :=
          [[(ca : ℤ), (ta : ℤ) - (ca : ℤ)], [(cb : ℤ), (tb : ℤ) - (cb : ℤ)]]
        match chi2 contingency_table with
        | some p_value =>
          let significant := decide (p_value < significance_level)
          some ([("accuracy",
            { prompt_a_value := acc_a
              prompt_b_value := acc_b
              difference := acc_b - acc_a
              p_value := some p_value
              statistically_significant := some significant
              winner := some
                (if decide (acc_b > acc_a) && significant then prompt_b
                 else if decide (acc_a > acc_b) && significant then prompt_a
                 else "tie") })],
            if significant then ["accuracy"] else [])
        | none => some ([], [])
      | _, _ => none
    | _, _ => some ([], [])
  | _, _ => some ([], [])

/-- The quality block of `_compare_two_prompts` (comparative_evaluator.py,
lines 239-265).  `ttest` is the external `scipy.stats.ttest_ind` oracle;
`none` models the call raising, which the `except` branch at line 264
recovers from by omitting the metric. -/
def qualityComparison (ttest : List ℕ → List ℕ → Option ℚ)
    (significance_level : ℚ) (metrics_a metrics_b : PromptMetrics)
    (prompt_a prompt_b : String) :
    List (String × ComparisonEntry) × List String :=
  match metrics_a.quality_scores, metrics_b.quality_scores with
  | some scores_a, some scores_b =>
    if scores_a.length > 0 && scores_b.length > 0 then
      match ttest scores_a scores_b with
      | some p_value =>
        let significant := decide (p_value < significance_level)
        let mean_a := listMean scores_a
        let mean_b := listMean scores_b
        ([("quality",
          { prompt_a_value := mean_a
            prompt_b_value := mean_b
            difference := mean_b - mean_a
            p_value := some p_value
            statistically_significant := some significant
            winner := some
              (if decide (mean_b > mean_a) && significant then prompt_b
               else if decide (mean_a > mean_b) && significant then prompt_a
               else "tie") })],
          if significant then ["quality"] else [])
      | none => ([], [])
    else ([], [])
  | _, _ => ([], [])

/-- The consistency block of `_compare_two_prompts`
(comparative_evaluator.py, lines 267-277): descriptive only, no
significance test, and the winner key is `descriptive_winner`. -/
def consistencyComparison (metrics_a metrics_b : PromptMetrics)
    (prompt_a prompt_b : String) : List (String × ComparisonEntry) :=
  match metrics_a.consistency_score, metrics_b.consistency_score with
  | some cons_a, some cons_b =>
    [("consistency",
      { prompt_a_value := cons_a
        prompt_b_value := cons_b
        difference := cons_b - cons_a
        descriptive_winner := some
          (if decide (cons_b > cons_a) then prompt_b
           else if decide (cons_a > cons_b) then prompt_a
           else "tie") })]
  | _, _ => []

/-- The winner-collection loop of `_compare_two_prompts`
(comparative_evaluator.py, lines 280-283): the `winner` values of the
metric comparisons, skipping entries without a `winner` key and entries
whose winner is `"tie"` (or `None`, which is the absent case here). -/
def collectWinners (entries : List (String × ComparisonEntry)) :
    List String :=
  (entries.filterMap fun p => p.2.winner).filter fun w => w ≠ "tie"

/-- The distinct values of `l` in first-occurrence order: the key order of
the Python dict `winner_counts` built by insertion. -/
def firstKeys : List String → List String
  | [] => []
  | x :: xs => x :: (firstKeys xs).filter fun y => y ≠ x

/-- `max(winner_counts, key=winner_counts.get)` (comparative_evaluator.py,
line 290): over the keys of the counts dict, in insertion order, Python's
`max` keeps the earliest key on equal counts and replaces only on a
strictly greater count.  The empty case is unreachable in the source
(guarded by `if winners:`). -/
def pyMaxByCount (l : List String) : String :=
  match firstKeys l with
  | [] => ""
  | k :: ks => ks.foldl (fun best k2 => if l.count k2 > l.count best then k2 else best) k

/-- `_compare_two_prompts` (comparative_evaluator.py, lines 197-294),
assembled from the three metric blocks: the `metrics_comparison` map is
built in insertion order accuracy, quality, consistency; the
`significant_differences` list is appended to in that same order; the
overall winner is the majority vote over the collected non-tie winners,
`"tie"` when there are none.  `none` models the uncaught `KeyError`
described at `accuracyComparison`. -/
def compareTwoPrompts (chi2 : List (List ℤ) → Option ℚ)
    (ttest : List ℕ → List ℕ → Option ℚ) (significance_level : ℚ)
    (metrics_a metrics_b : PromptMetrics) (prompt_a prompt_b : String) :
    Option Comparison :=
  match accuracyComparison chi2 significance_level metrics_a metrics_b prompt_a prompt_b with
  | none => none
  | some accPart =>
    let qualPart := qualityComparison ttest significance_level metrics_a metrics_b prompt_a prompt_b
    let consPart := consistencyComparison metrics_a metrics_b prompt_a prompt_b
    let entries := accPart.1 ++ qualPart.1 ++ consPart
    let winners := collectWinners entries
    some
      { prompt_a := prompt_a
        prompt_b := prompt_b
        metrics_comparison := entries
        overall_winner := if winners.isEmpty then "tie" else pyMaxByCount winners
        significant_differences := accPart.2 ++ qualPart.2 }

/-- The composite ranking score of one variant
(comparative_evaluator.py, lines 172-188): accumulate `value * weight`
and the weight for each present metric (accuracy 0.4, consistency 0.3,
quality/5 0.3), then divide by the accumulated weight, 0 when no metric
was present. -/
def rankingScore (m : PromptMetrics) : ℚ :=
  let acc : ℚ × ℚ := (0, 0)
  let acc : ℚ × ℚ :=
    match m.accuracy with
    | some a => (acc.1 + a * (2/5), acc.2 + 2/5)
    | none => acc
  let acc : ℚ × ℚ :=
    match m.consistency_score with
    | some c => (acc.1 + c * (3/10), acc.2 + 3/10)
    | none => acc
  let acc : ℚ × ℚ :=
    match m.average_quality with
    | some q => (acc.1 + q / 5 * (3/10), acc.2 + 3/10)
    | none => acc
  if acc.2 > 0 then acc.1 / acc.2 else 0

/-- `sorted(ranking_scores.items(), key=lambda x: x[1], reverse=True)`
(comparative_evaluator.py, lines 191-193): a stable descending sort of the
(id, composite score) pairs. -/
def overallRanking (prompt_metrics : List (String × PromptMetrics)) :
    List (String × ℚ) :=
  (prompt_metrics.map fun p => (p.1, rankingScore p.2)).mergeSort
    fun x y => decide (y.2 ≤ x.2)

/-- The `statistical_comparison` result of
`_perform_statistical_comparison`. -/
structure ComparisonResults where
  pairwise_comparisons : List (String × Comparison)
  overall_ranking : List (String × ℚ)
deriving DecidableEq, Repr

/-- `_perform_statistical_comparison` (comparative_evaluator.py,
lines 127-195): extract each variant's metrics, compare every ordered pair
`i < j` under the key `"A_vs_B"`, and rank all variants by composite
score.  `none` propagates the uncaught `KeyError` modelled in
`compareTwoPrompts`. -/
def performStatisticalComparison (chi2 : List (List ℤ) → Option ℚ)
    (ttest : List ℕ → List ℕ → Option ℚ) (significance_level : ℚ)
    (prompt_results : List (String × List (String × MetricResult))) :
    Option ComparisonResults :=
  let prompt_metrics := prompt_results.map fun p => (p.1, extractMetrics p.2)
  let pairs := orderedPairs prompt_metrics
  (pairs.mapM fun pq =>
      (compareTwoPrompts chi2 ttest significance_level pq.1.2 pq.2.2 pq.1.1 pq.2.1).map
        fun c => (pq.1.1 ++ "_vs_" ++ pq.2.1, c)).map
    fun cs =>
      { pairwise_comparisons := cs
        overall_ranking := overallRanking prompt_metrics }

/-- The recommendation dictionary of `_generate_recommendation`;
`none` fields model absent keys. -/
structure Recommendation where
  recommended_prompt : Option String := none
  reason : Option String := none
  ranking_score : Option ℚ := none
  significant_improvements : Option (List String) := none
  confidence : Option String := none
  score_advantage : Option ℚ := none
  runner_up : Option String := none
  note : Option String := none
deriving DecidableEq, Repr

/-- The loop of `_generate_recommendation` collecting
`significant_differences` from every pairwise comparison won by the
top-ranked prompt (comparative_evaluator.py, lines 387-390). -/
def significantImprovements (comparisons : List (String × Comparison))
    (best_prompt : String) : List String :=
  comparisons.foldl
    (fun acc p =>
      if p.2.overall_winner == best_prompt && !p.2.significant_differences.isEmpty
      then acc ++ p.2.significant_differences
      else acc)
    []

/-- The runner-up block of `_generate_recommendation`
(comparative_evaluator.py, lines 399-407): with at least two ranked
variants the score advantage and runner-up are recorded, and a gap below
0.05 overwrites the confidence with `"low"` and attaches the explanatory
note. -/
def recommendationDowngrade (base : Recommendation) (best_score : ℚ) :
    List (String × ℚ) → Recommendation
  | [] => base
  | (second_best, second_score) :: _ =>
    let score_difference := best_score - second_score
    let withRunner : Recommendation :=
      { base with
        score_advantage := some score_difference
        runner_up := some second_best }
    if score_difference < 1/20 then
      { withRunner with
        confidence := some "low"
        note := some "Results are very close. Consider additional testing." }
    else withRunner

/-- `_generate_recommendation` (comparative_evaluator.py, lines 376-409).
`significant_improvements` is built with `list(set(...))`, whose order is
arbitrary in Python; the first-occurrence order stands in for it here.
The confidence starts as `"high"` exactly when some improvement was
collected, `"medium"` otherwise, before the runner-up gap handling of
`recommendationDowngrade`. -/
def generateRecommendation (cr : ComparisonResults) : Recommendation :=
  match cr.overall_ranking with
  | [] =>
    { recommended_prompt := none
      reason := some "No valid ranking available" }
  | (best_prompt, best_score) :: rest =>
    let improvements := significantImprovements cr.pairwise_comparisons best_prompt
    recommendationDowngrade
      { recommended_prompt := some best_prompt
        ranking_score := some best_score
        significant_improvements := some (firstKeys improvements)
        confidence := some (if improvements.isEmpty then "medium" else "high") }
      best_score rest

/-- The final dictionary assembled by `compare_prompts`
(comparative_evaluator.py, lines 105-113); the timestamp, config and file
paths are environment data not modelled further. -/
structure CompareOutput where
  prompt_paths : List String
  individual_results : List (String × List (String × MetricResult))
  statistical_comparison : ComparisonResults
  recommendation : Recommendation
deriving Repr

/-- `compare_prompts` (comparative_evaluator.py, lines 61-125), with the
external effects abstracted: `evalPrompt` stands for a full
`PromptEvaluator.evaluate_prompt` run on one prompt file (API calls and
file IO included), returning that prompt's per-method results map; result
serialization, plotting and the markdown report are output-only side
channels, not modelled.  The `ValueError` raised for fewer than two
prompts is `Except.error "Need at least 2 prompts to compare"`; an
uncaught `KeyError` from the comparison stage would be
`Except.error "KeyError"` (proved unreachable for results produced by this
pipeline). -/
def comparePrompts (evalPrompt : String → List (String × MetricResult))
    (chi2 : List (List ℤ) → Option ℚ) (ttest : List ℕ → List ℕ → Option ℚ)
    (significance_level : ℚ) (prompt_paths : List String) :
    Except String CompareOutput :=
  if prompt_paths.length < 2 then
    Except.error "Need at least 2 prompts to compare"
  else
    let results := prompt_paths.enum.map
      fun p => ("prompt_" ++ toString (p.1 + 1), evalPrompt p.2)
    match performStatisticalComparison chi2 ttest significance_level results with
    | none => Except.error "KeyError"
    | some cr =>
      Except.ok
        { prompt_paths := prompt_paths
          individual_results := results
          statistical_comparison := cr
          recommendation := generateRecommendation cr }

/-- Whether an `Except` value is a success, modelling "the precondition
check passed and the pipeline ran to completion". -/
def exceptIsOk : Except String CompareOutput → Bool
  | Except.ok _ => true
  | Except.error _ => false

/-- Modelled from the spec: `scipy.stats.chi2_contingency` is external
code absent from the repository; per the spec a contingency table with a
zero row or column makes the test fail, which the caller observes as a
raised exception (`none` here).  On a non-degenerate table some p-value is
returned; its exact value is irrelevant to the claims and fixed at 1/2. -/
def chi2ModelSpec (table : List (List ℤ)) : Option ℚ :=
  if table.any (fun row => row.sum == 0) || (table.transpose.any fun col => col.sum == 0)
  then none
  else some (1/2)

/-- Modelled from the spec: `scipy.stats.ttest_ind` is external code
absent from the repository; per the spec a degenerate sample pair — both
samples with zero variance — makes the test fail, observed as a raised
exception (`none` here).  Otherwise some p-value, fixed at 1/2. -/
def ttestModelSpec (scores_a scores_b : List ℕ) : Option ℚ :=
  let zeroVariance := fun (l : List ℕ) => l.all fun x => x == l.headD 0
  if zeroVariance scores_a && zeroVariance scores_b then none else some (1/2)

/-- Whether one method's result makes the summary fail: its
`meets_threshold` key is present and false. -/
def failsThreshold (p : String × MetricResult) : Bool :=
  p.2.meets_threshold == some false

/-- A concrete comparison-results fixture: variant 1 ranked first with a
clear gap and one pairwise comparison won significantly by it. -/
def sampleComparisonResults : ComparisonResults :=
  { pairwise_comparisons :=
      [("prompt_1_vs_prompt_2",
        { prompt_a := "prompt_1", prompt_b := "prompt_2",
          metrics_comparison := [], overall_winner := "prompt_1",
          significant_differences := ["accuracy"] })]
    overall_ranking := [("prompt_1", 1/2), ("prompt_2", 1/4)] }

/-- Association-list lookup on a `metrics_comparison` map. -/
def lookupEntry (entries : List (String × ComparisonEntry)) (k : String) :
    Option ComparisonEntry :=
  (entries.find? fun p => p.1 == k).map Prod.snd

/-- A metric-dictionary fixture for variant A: a perfect 4-of-4 accuracy
(whose contingency table against variant B has a zero error column) and
the constant quality sample `[5,5,5,5]`. -/
def degenerateMetricsA : PromptMetrics :=
  { accuracy := some 1, correct_count := some 4, total_count := some 4,
    consistency_score := some (9/10), average_quality := some 5,
    quality_scores := some [5, 5, 5, 5] }

/-- A metric-dictionary fixture for variant B: also 4-of-4 accurate, with
the constant quality sample `[3,3,3,3]`. -/
def degenerateMetricsB : PromptMetrics :=
  { accuracy := some 1, correct_count := some 4, total_count := some 4,
    consistency_score := some (8/10), average_quality := some 3,
    quality_scores := some [3, 3, 3, 3] }

/-! Helper lemmas about the exact-match evaluator. -/

/-- The three counters of the exact-match loop, characterised as counts of
the corresponding record predicates. -/
theorem exactMatchCounts_spec (responses : List Response) :
    exactMatchCounts responses =
      (responses.countP (fun r => !r.error && r.hasExpected && r.outputMatches),
       responses.countP (fun r => !r.error && r.hasExpected),
       responses.countP (fun r => r.error)) := by
  induction responses with
  | nil => rfl
  | cons r rs ih =>
    simp only [exactMatchCounts, ih, List.countP_cons]
    by_cases he : r.error <;> by_cases hx : r.hasExpected <;>
      by_cases hm : r.outputMatches <;> simp [he, hx, hm]

/-- A matching record is in particular a counted record, so
`correct ≤ total`. -/
theorem exactMatch_correct_le_total (responses : List Response) :
    responses.countP (fun r => !r.error && r.hasExpected && r.outputMatches) ≤
    responses.countP (fun r => !r.error && r.hasExpected) := by
  induction responses with
  | nil => simp
  | cons r rs ih =>
    simp only [List.countP_cons]
    by_cases he : r.error <;> by_cases hx : r.hasExpected <;>
      by_cases hm : r.outputMatches <;> simp [he, hx, hm] <;> omega

/-- `correct = total` exactly when every counted record matches. -/
theorem exactMatch_all_iff (responses : List Response) :
    responses.countP (fun r => !r.error && r.hasExpected && r.outputMatches) =
      responses.countP (fun r => !r.error && r.hasExpected) ↔
    ∀ r ∈ responses, r.error = false → r.hasExpected = true →
      r.outputMatches = true := by
  induction responses with
  | nil => simp
  | cons r rs ih =>
    have hle := exactMatch_correct_le_total rs
    simp only [List.countP_cons, List.mem_cons]
    constructor
    · intro h
      by_cases he : r.error <;> by_cases hx : r.hasExpected <;>
        by_cases hm : r.outputMatches <;>
        simp [he, hx, hm] at h ⊢ <;>
        first
        | (intro x hx2; exact (ih.mp (by omega)) x hx2)
        | omega
    · intro h
      have htail : ∀ x ∈ rs, x.error = false → x.hasExpected = true →
          x.outputMatches = true := fun x hx2 => h x (Or.inr hx2)
      have hhead := h r (Or.inl rfl)
      by_cases he : r.error <;> by_cases hx : r.hasExpected <;>
        by_cases hm : r.outputMatches <;>
        simp [he, hx, hm, ih.mpr htail] at hhead ⊢

/-- Claim C1: for every list of response records, the exact-match evaluator
counts as `correct` the non-error records with a non-empty `expected`
whose stripped-lowercased output equals the stripped-lowercased expected
value, as `total` the non-error records with a non-empty `expected`;
`accuracy = correct/total` when `total > 0` and `0` when `total = 0`
(always a well-defined rational, never NaN); and under the default 0.85
threshold `meets_threshold = (accuracy ≥ 0.85)`.  On the two records
`(output "Paris", expected "paris")` and `(output "London", expected
"Berlin")` it returns accuracy 0.5, correct 1, total 2 and
`meets_threshold = false`. -/
theorem exact_match_evaluator_spec (responses : List Response) :
    (evaluateExactMatch accuracyThresholdDefault responses).correct =
      some (responses.countP fun r => !r.error && r.hasExpected && r.outputMatches) ∧
    (evaluateExactMatch accuracyThresholdDefault responses).total =
      some (responses.countP fun r => !r.error && r.hasExpected) ∧
    (evaluateExactMatch accuracyThresholdDefault responses).accuracy =
      some (if 0 < responses.countP (fun r => !r.error && r.hasExpected) then
        ((responses.countP fun r => !r.error && r.hasExpected && r.outputMatches : ℕ) : ℚ) /
          ((responses.countP fun r => !r.error && r.hasExpected : ℕ) : ℚ)
        else 0) ∧
    (evaluateExactMatch accuracyThresholdDefault responses).meets_threshold =
      some (decide
        ((if 0 < responses.countP (fun r => !r.error && r.hasExpected) then
          ((responses.countP fun r => !r.error && r.hasExpected && r.outputMatches : ℕ) : ℚ) /
            ((responses.countP fun r => !r.error && r.hasExpected : ℕ) : ℚ)
          else 0) ≥ 85/100)) ∧
    evaluateExactMatch accuracyThresholdDefault
        [⟨"Paris", some "paris", false⟩, ⟨"London", some "Berlin", false⟩] =
      { accuracy := some (1/2), correct := some 1, total := some 2,
        errors := some 0, meets_threshold := some false } := by
  refine ⟨?_, ?_, ?_, ?_, ?_⟩
  · simp [evaluateExactMatch, exactMatchCounts_spec]
  · simp [evaluateExactMatch, exactMatchCounts_spec]
  · simp [evaluateExactMatch, exactMatchCounts_spec]
  · simp [evaluateExactMatch, exactMatchCounts_spec, accuracyThresholdDefault]
  · simp [evaluateExactMatch, exactMatchCounts, Response.hasExpected,
      Response.outputMatches, pyLower, pyStrip, accuracyThresholdDefault]
    norm_num

/-- Claim C8 (counterexample): on the empty response list — no non-error
record carries a non-empty expected value — the evaluator returns
accuracy 0, not 1, while the claimed right-hand side of the equivalence
holds vacuously, so the claimed equivalence fails. -/
theorem exact_match_perfect_accuracy_counterexample :
    (evaluateExactMatch accuracyThresholdDefault []).accuracy = some 0 ∧
    ¬ (((evaluateExactMatch accuracyThresholdDefault []).accuracy.getD 0 = 1) ↔
      (∀ r ∈ ([] : List Response), r.error = false → r.hasExpected = true →
        r.outputMatches = true)) := by
  constructor
  · simp [evaluateExactMatch, exactMatchCounts]
  · simp only [evaluateExactMatch, exactMatchCounts]
    norm_num

/-- Claim C8 (amended): for every response set and threshold, the
exact-match accuracy lies in `[0,1]`, and it equals 1 exactly when
`total > 0` — some non-error record carries a non-empty expected value —
and every non-error record with a non-empty expected value has its
stripped-lowercased output equal to the stripped-lowercased expected
value.  (When no record is counted, the code returns accuracy 0, not
1.) -/
theorem exact_match_accuracy_range (accuracy_threshold : ℚ)
    (responses : List Response) :
    0 ≤ (evaluateExactMatch accuracy_threshold responses).accuracy.getD 0 ∧
    (evaluateExactMatch accuracy_threshold responses).accuracy.getD 0 ≤ 1 ∧
    ((evaluateExactMatch accuracy_threshold responses).accuracy.getD 0 = 1 ↔
      (0 < responses.countP (fun r => !r.error && r.hasExpected) ∧
        ∀ r ∈ responses, r.error = false → r.hasExpected = true →
          r.outputMatches = true)) := by
  have hle := exactMatch_correct_le_total responses
  simp only [evaluateExactMatch, exactMatchCounts_spec, Option.getD_some]
  by_cases ht : 0 < responses.countP (fun r => !r.error && r.hasExpected)
  · have htQ : (0 : ℚ) <
        ((responses.countP fun r => !r.error && r.hasExpected : ℕ) : ℚ) := by
      exact_mod_cast ht
    refine ⟨?_, ?_, ?_⟩
    · simp only [ht, if_true]
      positivity
    · simp only [ht, if_true]
      rw [div_le_one htQ]
      exact_mod_cast hle
    · simp only [ht, if_true, true_and, ht]
      rw [div_eq_one_iff_eq (ne_of_gt htQ)]
      rw [← exactMatch_all_iff responses]
      exact ⟨fun h => by exact_mod_cast h, fun h => by exact_mod_cast h⟩
  · refine ⟨by simp [ht], by simp [ht], ?_⟩
    simp [ht]

/-! Helper lemmas about the summary aggregator. -/

/-- `failsThreshold` unfolded to its propositional meaning. -/
theorem failsThreshold_iff (p : String × MetricResult) :
    failsThreshold p = true ↔ p.2.meets_threshold = some false := by
  simp [failsThreshold]

/-- The loop step as a conditional on the failing case. -/
theorem summaryStep_eq (acc : String × List String)
    (p : String × MetricResult) :
    summaryStep acc p =
      cond (failsThreshold p) ("FAIL", acc.2 ++ [p.1]) acc := by
  obtain ⟨name, r⟩ := p
  unfold summaryStep failsThreshold
  rcases hm : r.meets_threshold with _ | b
  · simp [hm]
  · cases b <;> simp [hm]

/-- Characterisation of the threshold-checking loop from an arbitrary
accumulator: the status flips to FAIL exactly when some processed result
carries `meets_threshold = false`, and the failing method names are
appended in processing order. -/
theorem summaryFold_go (results : List (String × MetricResult))
    (acc : String × List String) :
    (results.foldl summaryStep acc).1 =
      cond (results.any failsThreshold) "FAIL" acc.1 ∧
    (results.foldl summaryStep acc).2 =
      acc.2 ++ (results.filter failsThreshold).map Prod.fst := by
  induction results generalizing acc with
  | nil => simp
  | cons p ps ih =>
    simp only [List.foldl_cons, List.any_cons, List.filter_cons,
      summaryStep_eq]
    rcases hm : failsThreshold p
    · simpa [hm] using ih acc
    · have := ih ("FAIL", acc.2 ++ [p.1])
      simp [hm, this]

/-- Claim C2: the summary is FAIL exactly when some method's result carries
`meets_threshold = false`; otherwise it is PASS; `failed_criteria` lists
exactly the methods whose result carries `meets_threshold = false`, in the
iteration order of the results map; and the ROUGE evaluator's result never
contains a `meets_threshold` key at all, so a ROUGE result can never by
itself cause a FAIL. -/
theorem summary_fail_characterisation (results : List (String × MetricResult))
    (score : String → String → ℚ × ℚ × ℚ) (responses : List Response) :
    ((generateSummary results).overall_status = "FAIL" ↔
      ∃ p ∈ results, p.2.meets_threshold = some false) ∧
    ((generateSummary results).overall_status = "PASS" ↔
      ¬ ∃ p ∈ results, p.2.meets_threshold = some false) ∧
    (generateSummary results).failed_criteria =
      (results.filter failsThreshold).map Prod.fst ∧
    (evaluateRouge score responses).meets_threshold = none := by
  have hgo := summaryFold_go results ("PASS", [])
  have hex : results.any failsThreshold = true ↔
      ∃ p ∈ results, p.2.meets_threshold = some false := by
    simp [List.any_eq_true, failsThreshold_iff]
  refine ⟨?_, ?_, ?_, ?_⟩
  · simp only [generateSummary, summaryFold, hgo.1]
    rcases h : results.any failsThreshold <;> simp [← hex, h]
  · simp only [generateSummary, summaryFold, hgo.1]
    rcases h : results.any failsThreshold <;> simp [← hex, h]
  · simpa [generateSummary, summaryFold] using hgo.2
  · rfl

/-! Helper lemmas about the degenerate consistency result. -/

/-- Appending one binding to a results map changes a lookup only when the
key was previously absent and matches the new binding. -/
theorem lookupResult_append_single (results : List (String × MetricResult))
    (x : String × MetricResult) (k : String) :
    lookupResult (results ++ [x]) k =
      match lookupResult results k with
      | some r => some r
      | none => if x.1 = k then some x.2 else none := by
  unfold lookupResult
  rw [List.find?_append]
  rcases h : List.find? (fun p => p.1 == k) results with _ | s
  · by_cases hx : x.1 = k
    · simp [h, List.find?, hx]
    · have hb : (x.1 == k) = false := by simp [hx]
      simp [h, List.find?, hb, hx]
  · simp [h]

/-- A recommendation rule ignores an appended result without a
`meets_threshold` key: absent means `.get("meets_threshold", True)` is
True, so the rule does not fire. -/
theorem recommendationFor_append_no_threshold
    (results : List (String × MetricResult)) (name : String)
    (r : MetricResult) (hr : r.meets_threshold = none) (method msg : String) :
    recommendationFor (results ++ [(name, r)]) method msg =
      recommendationFor results method msg := by
  unfold recommendationFor
  rw [lookupResult_append_single]
  rcases h : lookupResult results method with _ | s
  · by_cases hn : name = method <;> simp [hn, hr]
  · simp

/-- Claim C7: with fewer than two non-error records the consistency
evaluator returns exactly `{consistency_score: 0, note: "Insufficient
responses for consistency check"}` — in particular with no
`meets_threshold` key — and appending this degenerate result to any
results map changes neither the PASS/FAIL status, nor the failed
criteria, nor the recommendations of the summary, so it can never cause
the FAIL verdict. -/
theorem consistency_insufficient_degenerate
    (encode : List String → List (List ℚ)) (norm : List ℚ → ℚ)
    (consistency_threshold : ℚ) (responses : List Response)
    (h : (responses.filter fun r => !r.error).length < 2) :
    evaluateConsistency encode norm consistency_threshold responses =
      insufficientConsistency ∧
    (evaluateConsistency encode norm consistency_threshold responses).meets_threshold =
      none ∧
    ∀ results : List (String × MetricResult),
      generateSummary (results ++
          [("consistency",
            evaluateConsistency encode norm consistency_threshold responses)]) =
        generateSummary results := by
  have hlen : ((responses.filter fun r => !r.error).map Response.output).length < 2 := by
    simpa using h
  have heval : evaluateConsistency encode norm consistency_threshold responses =
      insufficientConsistency := by
    unfold evaluateConsistency
    simp only [hlen, if_true]
  refine ⟨heval, by rw [heval]; rfl, ?_⟩
  intro results
  rw [heval]
  have hr0m : insufficientConsistency.meets_threshold = none := rfl
  have hfold : summaryFold (results ++
      [("consistency", insufficientConsistency)]) = summaryFold results := by
    unfold summaryFold
    rw [List.foldl_append]
    simp [summaryStep_eq, failsThreshold, hr0m]
  simp only [generateSummary, hfold,
    recommendationFor_append_no_threshold results "consistency" _ hr0m]

/-- Witness for `consistency_insufficient_degenerate`: a single non-error
response, an arbitrary embedding oracle, and a one-entry results map. -/
theorem consistency_insufficient_degenerate_witness :
    evaluateConsistency (fun _ => []) (fun _ => 0) (8/10)
        [⟨"only one response", none, false⟩] = insufficientConsistency ∧
    generateSummary
        [("exact_match", { meets_threshold := some true }),
         ("consistency", evaluateConsistency (fun _ => []) (fun _ => 0) (8/10)
           [⟨"only one response", none, false⟩])] =
      generateSummary [("exact_match", { meets_threshold := some true })] :=
  ⟨(consistency_insufficient_degenerate (fun _ => []) (fun _ => 0) (8/10)
      [⟨"only one response", none, false⟩] (by decide)).1,
   (consistency_insufficient_degenerate (fun _ => []) (fun _ => 0) (8/10)
      [⟨"only one response", none, false⟩] (by decide)).2.2
    [("exact_match", { meets_threshold := some true })]⟩

/-! Helper lemmas about the majority-vote overall winner. -/

/-- `firstKeys` keeps exactly the members of the list. -/
theorem mem_firstKeys (l : List String) (a : String) :
    a ∈ firstKeys l ↔ a ∈ l := by
  induction l with
  | nil => simp [firstKeys]
  | cons x xs ih =>
    simp only [firstKeys, List.mem_cons, List.mem_filter, ih]
    by_cases ha : a = x
    · simp [ha]
    · simp [ha]

/-- Python's `max(..., key=counts.get)` over a key list returns the
strict-majority value whenever one exists: the fold keeps the current best
and replaces it only on a strictly greater count. -/
theorem pyFold_strict_majority (l : List String) (w : String)
    (hmax : ∀ v, v ≠ w → l.count v < l.count w) :
    ∀ (ks : List String) (b : String), (w ∈ ks ∨ b = w) →
      ks.foldl (fun best k2 => if l.count k2 > l.count best then k2 else best) b = w := by
  intro ks
  induction ks with
  | nil =>
    intro b h
    rcases h with h | h
    · simp at h
    · simpa using h
  | cons k ks ih =>
    intro b h
    simp only [List.foldl_cons]
    by_cases hk : l.count k > l.count b
    · rw [if_pos hk]
      apply ih
      rcases h with h | h
      · rcases List.mem_cons.mp h with h1 | h1
        · right; exact h1.symm
        · left; exact h1
      · by_cases hkw : k = w
        · right; exact hkw
        · rw [h] at hk
          exact absurd hk (not_lt.mpr (le_of_lt (hmax k hkw)))
    · rw [if_neg hk]
      apply ih
      rcases h with h | h
      · rcases List.mem_cons.mp h with h1 | h1
        · right
          by_cases hbw : b = w
          · exact hbw
          · have hcw := hmax b hbw
            rw [← h1] at hk
            exact absurd hcw (by omega)
        · left; exact h1
      · right; exact h


/-- `pyMaxByCount` returns the strict-majority winner when one exists. -/
theorem pyMaxByCount_strict_majority (l : List String) (w : String)
    (hw : w ∈ l) (hmax : ∀ v, v ≠ w → l.count v < l.count w) :
    pyMaxByCount l = w := by
  have hwk : w ∈ firstKeys l := (mem_firstKeys l w).mpr hw
  unfold pyMaxByCount
  rcases hk : firstKeys l with _ | ⟨k, ks⟩
  · rw [hk] at hwk
    simp at hwk
  · rw [hk] at hwk
    apply pyFold_strict_majority l w hmax
    rcases List.mem_cons.mp hwk with h1 | h1
    · right; exact h1.symm
    · left; exact h1

/-- On a two-element winner list Python's `max` returns the first element:
on an evenly split vote the earlier key wins, and on a repeated winner the
unique key wins. -/
theorem pyMaxByCount_pair (a b : String) : pyMaxByCount [a, b] = a := by
  by_cases hba : b = a
  · subst hba
    simp [pyMaxByCount, firstKeys]
  · have hfk : firstKeys [a, b] = [a, b] := by
      simp [firstKeys, hba]
    have hca : [a, b].count a = 1 := by
      simp [List.count_cons, hba]
    have hcb : [a, b].count b = 1 := by
      simp [List.count_cons, hba]
    simp [pyMaxByCount, hfk, hca, hcb]

/-- Inversion for `compareTwoPrompts`: any produced comparison determines
its overall winner from its own collected winners by the tie/majority
rule. -/
theorem compareTwoPrompts_overall_winner (chi2 : List (List ℤ) → Option ℚ)
    (ttest : List ℕ → List ℕ → Option ℚ) (sl : ℚ) (ma mb : PromptMetrics)
    (pa pb : String) (c : Comparison)
    (h : compareTwoPrompts chi2 ttest sl ma mb pa pb = some c) :
    c.overall_winner =
      if (collectWinners c.metrics_comparison).isEmpty then "tie"
      else pyMaxByCount (collectWinners c.metrics_comparison) := by
  unfold compareTwoPrompts at h
  rcases hacc : accuracyComparison chi2 sl ma mb pa pb with _ | ap
  · rw [hacc] at h
    cases h
  · rw [hacc] at h
    injection h with h
    subst h
    rfl

/-- Claim C3 (amended): the overall winner of a pairwise comparison is the
majority vote over the per-metric non-tie `winner` fields: with no such
winner the result is `"tie"`; a strict-majority winner always wins; but on
an evenly split two-element vote the code returns the *first* collected
winner (Python's `max` keeps the first key of the counts dict on equal
counts, and the accuracy entry precedes the quality entry), not `"tie"`.
On the scenario of accuracies 0.90 vs 0.89 whose chi-square test is not
significant and no other metrics, the result is `overall_winner = "tie"`
with `significant_differences = []`. -/
theorem overall_winner_majority_vote (chi2 : List (List ℤ) → Option ℚ)
    (ttest : List ℕ → List ℕ → Option ℚ) (sl : ℚ) (ma mb : PromptMetrics)
    (pa pb : String) (c : Comparison)
    (h : compareTwoPrompts chi2 ttest sl ma mb pa pb = some c) :
    (collectWinners c.metrics_comparison = [] → c.overall_winner = "tie") ∧
    (∀ w ∈ collectWinners c.metrics_comparison,
      (∀ v ∈ collectWinners c.metrics_comparison, v ≠ w →
        (collectWinners c.metrics_comparison).count v <
          (collectWinners c.metrics_comparison).count w) →
      c.overall_winner = w) ∧
    (∀ w1 w2 : String, collectWinners c.metrics_comparison = [w1, w2] →
      c.overall_winner = w1) ∧
    (∀ p : ℚ, ¬ p < 1/20 →
      (compareTwoPrompts (fun _ => some p) ttest (1/20)
        { accuracy := some (9/10), correct_count := some 90, total_count := some 100 }
        { accuracy := some (89/100), correct_count := some 89, total_count := some 100 }
        pa pb).map (fun c2 => (c2.overall_winner, c2.significant_differences)) =
        some ("tie", [])) := by
  have hrule := compareTwoPrompts_overall_winner chi2 ttest sl ma mb pa pb c h
  refine ⟨?_, ?_, ?_, ?_⟩
  · intro hw
    rw [hrule, hw]
    rfl
  · intro w hw hmax
    rw [hrule]
    have hne : (collectWinners c.metrics_comparison).isEmpty = false := by
      rcases hcw : collectWinners c.metrics_comparison with _ | _
      · rw [hcw] at hw
        simp at hw
      · simp [List.isEmpty]
    rw [hne]
    simp only [Bool.false_eq_true, if_false]
    apply pyMaxByCount_strict_majority _ w hw
    intro v hv
    by_cases hvm : v ∈ collectWinners c.metrics_comparison
    · exact hmax v hvm hv
    · have h0 : (collectWinners c.metrics_comparison).count v = 0 :=
        List.count_eq_zero.mpr hvm
      have h1 : 0 < (collectWinners c.metrics_comparison).count w :=
        List.count_pos_iff.mpr hw
      omega
  · intro w1 w2 hcw
    rw [hrule, hcw]
    simp [pyMaxByCount_pair]
  · intro p hp
    have hsig : decide (p < (1:ℚ)/20) = false := by
      simp only [decide_eq_false_iff_not]
      exact hp
    have hgt1 : decide ((89:ℚ)/100 > 9/10) = false := by norm_num
    have ha : accuracyComparison (fun _ => some p) (1/20)
        { accuracy := some (9/10), correct_count := some 90, total_count := some 100 }
        { accuracy := some (89/100), correct_count := some 89, total_count := some 100 }
        pa pb =
        some ([("accuracy",
          { prompt_a_value := 9/10, prompt_b_value := 89/100,
            difference := 89/100 - 9/10, p_value := some p,
            statistically_significant := some false,
            winner := some "tie" })], []) := by
      unfold accuracyComparison
      simp only [hsig, hgt1, Bool.false_and, Bool.and_false, Bool.false_eq_true,
        if_false]
    have hq : qualityComparison ttest (1/20)
        { accuracy := some (9/10), correct_count := some 90, total_count := some 100 }
        { accuracy := some (89/100), correct_count := some 89, total_count := some 100 }
        pa pb = ([], []) := rfl
    have hc2 : consistencyComparison
        { accuracy := some (9/10), correct_count := some 90, total_count := some 100 }
        { accuracy := some (89/100), correct_count := some 89, total_count := some 100 }
        pa pb = [] := rfl
    simp only [compareTwoPrompts]
    rw [ha, hq, hc2]
    simp [collectWinners]

/-- Claim C3 (counterexample): an evenly split vote does not yield
`"tie"`.  Variant 1 wins accuracy significantly (9/10 vs 1/10, p = 0.01)
while variant 2 wins quality significantly (mean 3/2 vs 9/2, p = 0.01):
the collected winner list is `["prompt_1", "prompt_2"]`, a 1-1 split, and
the code returns `"prompt_1"` — Python's `max` over the counts dict keeps
the first-inserted key — not `"tie"` as the claim states. -/
theorem overall_winner_split_vote_counterexample :
    (compareTwoPrompts (fun _ => some (1/100)) (fun _ _ => some (1/100)) (1/20)
      { accuracy := some (9/10), correct_count := some 9, total_count := some 10,
        quality_scores := some [1, 2, 1, 2] }
      { accuracy := some (1/10), correct_count := some 1, total_count := some 10,
        quality_scores := some [4, 5, 4, 5] }
      "prompt_1" "prompt_2").map
        (fun c => (c.overall_winner, collectWinners c.metrics_comparison)) =
      some ("prompt_1", ["prompt_1", "prompt_2"]) ∧
    "prompt_1" ≠ "tie" := by
  constructor
  · have ha : accuracyComparison (fun _ => some (1/100)) (1/20)
        { accuracy := some (9/10), correct_count := some 9, total_count := some 10,
          quality_scores := some [1, 2, 1, 2] }
        { accuracy := some (1/10), correct_count := some 1, total_count := some 10,
          quality_scores := some [4, 5, 4, 5] } "prompt_1" "prompt_2" =
        some ([("accuracy",
          { prompt_a_value := 9/10, prompt_b_value := 1/10, difference := -(4/5),
            p_value := some (1/100), statistically_significant := some true,
            winner := some "prompt_1" })], ["accuracy"]) := by
      norm_num [accuracyComparison]
    have hq : qualityComparison (fun _ _ => some (1/100)) (1/20)
        { accuracy := some (9/10), correct_count := some 9, total_count := some 10,
          quality_scores := some [1, 2, 1, 2] }
        { accuracy := some (1/10), correct_count := some 1, total_count := some 10,
          quality_scores := some [4, 5, 4, 5] } "prompt_1" "prompt_2" =
        ([("quality",
          { prompt_a_value := 3/2, prompt_b_value := 9/2, difference := 3,
            p_value := some (1/100), statistically_significant := some true,
            winner := some "prompt_2" })], ["quality"]) := by
      norm_num [qualityComparison, listMean]
    have hc : consistencyComparison
        { accuracy := some (9/10), correct_count := some 9, total_count := some 10,
          quality_scores := some [1, 2, 1, 2] }
        { accuracy := some (1/10), correct_count := some 1, total_count := some 10,
          quality_scores := some [4, 5, 4, 5] } "prompt_1" "prompt_2" = [] := rfl
    simp only [compareTwoPrompts]
    rw [ha, hq, hc]
    simp [collectWinners, pyMaxByCount, firstKeys]
  · decide

/-- Witness for `overall_winner_majority_vote`: two empty metric
dictionaries produce a comparison with no collected winners, and the
theorem then forces the `"tie"` overall winner. -/
theorem overall_winner_majority_vote_witness :
    compareTwoPrompts (fun _ => none) (fun _ _ => none) 1 {} {}
        "prompt_1" "prompt_2" =
      some { prompt_a := "prompt_1", prompt_b := "prompt_2",
             metrics_comparison := [], overall_winner := "tie",
             significant_differences := [] } ∧
    ({ prompt_a := "prompt_1", prompt_b := "prompt_2",
       metrics_comparison := [], overall_winner := "tie",
       significant_differences := [] } : Comparison).overall_winner = "tie" :=
  ⟨rfl,
   (overall_winner_majority_vote (fun _ => none) (fun _ _ => none) 1 {} {}
      "prompt_1" "prompt_2" _ rfl).1 rfl⟩

/-! Helper lemmas about the composite ranking. -/

/-- The descending comparison used for `sorted(..., reverse=True)` is
transitive. -/
theorem rankingLe_trans (a b c : String × ℚ)
    (h1 : decide (b.2 ≤ a.2) = true) (h2 : decide (c.2 ≤ b.2) = true) :
    decide (c.2 ≤ a.2) = true := by
  simp only [decide_eq_true_eq] at h1 h2 ⊢
  exact le_trans h2 h1

/-- The descending comparison is total. -/
theorem rankingLe_total (a b : String × ℚ) :
    (decide (b.2 ≤ a.2) || decide (a.2 ≤ b.2)) = true := by
  rcases le_total b.2 a.2 with h | h <;> simp [h]

/-- Claim C5: the composite ranking score is the weighted sum of whichever
of accuracy (weight 0.4), consistency (weight 0.3) and quality/5
(weight 0.3) are present, divided by the sum of the weights actually used
(0 when no metric is present); in particular a variant with accuracy and
consistency but no quality scores `(0.4·a + 0.3·c)/0.7` rather than a
value diluted by a missing-metric zero; and the overall ranking is the
(stable) descending sort of the variants by this score. -/
theorem ranking_score_renormalisation (m : PromptMetrics) (a c : ℚ)
    (ms : List (String × PromptMetrics)) :
    rankingScore m =
      (if 0 < (if m.accuracy.isSome then (2:ℚ)/5 else 0) +
          (if m.consistency_score.isSome then (3:ℚ)/10 else 0) +
          (if m.average_quality.isSome then (3:ℚ)/10 else 0) then
        (m.accuracy.getD 0 * (2/5) + m.consistency_score.getD 0 * (3/10) +
          m.average_quality.getD 0 / 5 * (3/10)) /
          ((if m.accuracy.isSome then (2:ℚ)/5 else 0) +
            (if m.consistency_score.isSome then (3:ℚ)/10 else 0) +
            (if m.average_quality.isSome then (3:ℚ)/10 else 0))
      else 0) ∧
    rankingScore { accuracy := some a, consistency_score := some c } =
      (a * (2/5) + c * (3/10)) / (7/10) ∧
    rankingScore {} = 0 ∧
    (overallRanking ms).Pairwise (fun x y => y.2 ≤ x.2) ∧
    (overallRanking ms).Perm (ms.map fun p => (p.1, rankingScore p.2)) := by
  obtain ⟨oa, occ, otc, ocs, oaq, oqs⟩ := m
  refine ⟨?_, ?_, ?_, ?_, ?_⟩
  · rcases oa with _ | a0 <;> rcases ocs with _ | c0 <;> rcases oaq with _ | q0 <;>
      (simp only [rankingScore]
       norm_num)
  · simp only [rankingScore]
    norm_num
  · simp [rankingScore]
  · exact (List.sorted_mergeSort rankingLe_trans rankingLe_total
      (ms.map fun p => (p.1, rankingScore p.2))).imp fun h =>
        of_decide_eq_true h
  · exact List.mergeSort_perm (ms.map fun p => (p.1, rankingScore p.2)) _

/-- Bounding a quotient whose numerator is within the denominator. -/
theorem div_within_unit (n d : ℚ) (hd : 0 < d) (h1 : -d ≤ n) (h2 : n ≤ d) :
    -1 ≤ n / d ∧ n / d ≤ 1 := by
  constructor
  · rw [le_div_iff₀ hd]
    linarith
  · rw [div_le_one hd]
    exact h2

/-- Claim C9 (amended): for metric values in the ranges the evaluators
produce — accuracy in `[0,1]`, consistency score in `[-1,1]` (a mean of
cosine similarities), average quality in `[0,5]` — the composite ranking
score lies in `[-1,1]`, and it lies in `[0,1]` whenever the consistency
score is nonnegative (in particular whenever consistency is absent).  It
is *not* confined to `[0,1]` in general: a negative mean cosine
similarity yields a negative composite score (see the counterexample). -/
theorem composite_score_range (m : PromptMetrics)
    (ha : ∀ x, m.accuracy = some x → 0 ≤ x ∧ x ≤ 1)
    (hc : ∀ x, m.consistency_score = some x → -1 ≤ x ∧ x ≤ 1)
    (hq : ∀ x, m.average_quality = some x → 0 ≤ x ∧ x ≤ 5) :
    (-1 ≤ rankingScore m ∧ rankingScore m ≤ 1) ∧
    ((∀ x, m.consistency_score = some x → 0 ≤ x) → 0 ≤ rankingScore m) := by
  obtain ⟨oa, occ, otc, ocs, oaq, oqs⟩ := m
  rcases oa with _ | a0 <;> rcases ocs with _ | c0 <;> rcases oaq with _ | q0
  · have hval : rankingScore ⟨none, occ, otc, none, none, oqs⟩ = 0 := by
      simp [rankingScore]
    rw [hval]
    norm_num
  · obtain ⟨hq1, hq2⟩ := hq q0 rfl
    have hval : rankingScore ⟨none, occ, otc, none, some q0, oqs⟩ =
        (q0 / 5 * (3/10)) / (3/10) := by
      simp only [rankingScore]
      norm_num
    rw [hval]
    refine ⟨div_within_unit _ _ (by norm_num) (by linarith) (by linarith), ?_⟩
    intro _
    apply div_nonneg (by linarith) (by norm_num)
  · obtain ⟨hc1, hc2⟩ := hc c0 rfl
    have hval : rankingScore ⟨none, occ, otc, some c0, none, oqs⟩ =
        (c0 * (3/10)) / (3/10) := by
      simp only [rankingScore]
      norm_num
    rw [hval]
    refine ⟨div_within_unit _ _ (by norm_num) (by linarith) (by linarith), ?_⟩
    intro hpos
    have hc0 := hpos c0 rfl
    apply div_nonneg (by linarith) (by norm_num)
  · obtain ⟨hc1, hc2⟩ := hc c0 rfl
    obtain ⟨hq1, hq2⟩ := hq q0 rfl
    have hval : rankingScore ⟨none, occ, otc, some c0, some q0, oqs⟩ =
        (c0 * (3/10) + q0 / 5 * (3/10)) / (3/5) := by
      simp only [rankingScore]
      norm_num
    rw [hval]
    refine ⟨div_within_unit _ _ (by norm_num) (by linarith) (by linarith), ?_⟩
    intro hpos
    have hc0 := hpos c0 rfl
    apply div_nonneg (by linarith) (by norm_num)
  · obtain ⟨ha1, ha2⟩ := ha a0 rfl
    have hval : rankingScore ⟨some a0, occ, otc, none, none, oqs⟩ =
        (a0 * (2/5)) / (2/5) := by
      simp only [rankingScore]
      norm_num
    rw [hval]
    refine ⟨div_within_unit _ _ (by norm_num) (by linarith) (by linarith), ?_⟩
    intro _
    apply div_nonneg (by linarith) (by norm_num)
  · obtain ⟨ha1, ha2⟩ := ha a0 rfl
    obtain ⟨hq1, hq2⟩ := hq q0 rfl
    have hval : rankingScore ⟨some a0, occ, otc, none, some q0, oqs⟩ =
        (a0 * (2/5) + q0 / 5 * (3/10)) / (7/10) := by
      simp only [rankingScore]
      norm_num
    rw [hval]
    refine ⟨div_within_unit _ _ (by norm_num) (by linarith) (by linarith), ?_⟩
    intro _
    apply div_nonneg (by linarith) (by norm_num)
  · obtain ⟨ha1, ha2⟩ := ha a0 rfl
    obtain ⟨hc1, hc2⟩ := hc c0 rfl
    have hval : rankingScore ⟨some a0, occ, otc, some c0, none, oqs⟩ =
        (a0 * (2/5) + c0 * (3/10)) / (7/10) := by
      simp only [rankingScore]
      norm_num
    rw [hval]
    refine ⟨div_within_unit _ _ (by norm_num) (by linarith) (by linarith), ?_⟩
    intro hpos
    have hc0 := hpos c0 rfl
    apply div_nonneg (by linarith) (by norm_num)
  · obtain ⟨ha1, ha2⟩ := ha a0 rfl
    obtain ⟨hc1, hc2⟩ := hc c0 rfl
    obtain ⟨hq1, hq2⟩ := hq q0 rfl
    have hval : rankingScore ⟨some a0, occ, otc, some c0, some q0, oqs⟩ =
        (a0 * (2/5) + c0 * (3/10) + q0 / 5 * (3/10)) / 1 := by
      simp only [rankingScore]
      norm_num
    rw [hval]
    refine ⟨div_within_unit _ _ (by norm_num) (by linarith) (by linarith), ?_⟩
    intro hpos
    have hc0 := hpos c0 rfl
    apply div_nonneg (by linarith) (by norm_num)

/-- Witness for `composite_score_range`: a variant with accuracy 1/2,
consistency 1/2 and average quality 3 has its composite score within
bounds. -/
theorem composite_score_range_witness :
    -1 ≤ rankingScore
      { accuracy := some (1/2), consistency_score := some (1/2),
        average_quality := some 3 } ∧
    rankingScore
      { accuracy := some (1/2), consistency_score := some (1/2),
        average_quality := some 3 } ≤ 1 :=
  (composite_score_range
    { accuracy := some (1/2), consistency_score := some (1/2),
      average_quality := some 3 }
    (fun x hx => by
      injection hx with hx
      constructor <;> rw [← hx] <;> norm_num)
    (fun x hx => by
      injection hx with hx
      constructor <;> rw [← hx] <;> norm_num)
    (fun x hx => by
      injection hx with hx
      constructor <;> rw [← hx] <;> norm_num)).1

/-- Claim C9 (counterexample): the claimed interval `[0,1]` fails.  The
consistency evaluator run on two non-error responses whose embeddings are
the antipodal unit vectors `[1,0]` and `[-1,0]` (the `norm` oracle
returning their exact norm 1) reports the mean pairwise cosine similarity
`-1`; the variant's composite score in the overall ranking is then `-1`,
which is not in `[0,1]`. -/
theorem composite_score_unit_interval_counterexample :
    (evaluateConsistency (fun _ => [[1, 0], [-1, 0]]) (fun _ => 1) (8/10)
      [⟨"first output", none, false⟩, ⟨"second output", none, false⟩]).consistency_score =
      some (-1) ∧
    overallRanking [("prompt_1", extractMetrics
      [("consistency", evaluateConsistency (fun _ => [[1, 0], [-1, 0]]) (fun _ => 1) (8/10)
        [⟨"first output", none, false⟩, ⟨"second output", none, false⟩])])] =
      [("prompt_1", -1)] ∧
    ¬ (0 ≤ (-1 : ℚ)) := by
  have h1 : evaluateConsistency (fun _ => [[1, 0], [-1, 0]]) (fun _ => 1) (8/10)
      [⟨"first output", none, false⟩, ⟨"second output", none, false⟩] =
      { consistency_score := some (-1), total_comparisons := some 1,
        meets_threshold := some false } := by
    norm_num [evaluateConsistency, orderedPairs, dotProduct]
  have h2 : extractMetrics [("consistency",
      { consistency_score := some (-1), total_comparisons := some 1,
        meets_threshold := some false : MetricResult })] =
      { consistency_score := some (-1) } := by
    simp [extractMetrics, lookupResult]
  have h3 : rankingScore { consistency_score := some (-1) } = -1 := by
    norm_num [rankingScore]
  refine ⟨by rw [h1], ?_, by norm_num⟩
  rw [h1, h2]
  simp [overallRanking, List.mergeSort, h3]

/-! Helper lemmas about the recommendation engine. -/

/-- The improvement-collection fold is empty exactly when it started empty
and no processed comparison both names the given prompt as overall winner
and carries significant differences. -/
theorem sigImpFold_nil_iff (best : String) (l : List (String × Comparison)) :
    ∀ acc : List String,
      (l.foldl (fun acc p =>
          if p.2.overall_winner == best && !p.2.significant_differences.isEmpty
          then acc ++ p.2.significant_differences
          else acc) acc = [] ↔
        (acc = [] ∧ ∀ p ∈ l, p.2.overall_winner = best →
          p.2.significant_differences = [])) := by
  induction l with
  | nil =>
    intro acc
    simp
  | cons p ps ih =>
    intro acc
    simp only [List.foldl_cons, List.mem_cons]
    by_cases hcond :
        (p.2.overall_winner == best && !p.2.significant_differences.isEmpty) = true
    · rw [if_pos hcond, ih]
      simp only [List.append_eq_nil]
      have hw : p.2.overall_winner = best := by
        rw [Bool.and_eq_true, beq_iff_eq] at hcond
        exact hcond.1
      have hs : p.2.significant_differences ≠ [] := by
        rw [Bool.and_eq_true] at hcond
        simpa using hcond.2
      constructor
      · rintro ⟨⟨hacc, hsig⟩, hall⟩
        exact absurd hsig hs
      · rintro ⟨hacc, hall⟩
        exact absurd (hall p (Or.inl rfl) hw) hs
    · rw [if_neg hcond, ih]
      constructor
      · rintro ⟨hacc, hall⟩
        refine ⟨hacc, ?_⟩
        intro q hq hwq
        rcases hq with hq | hq
        · subst hq
          by_contra hne
          apply hcond
          rw [Bool.and_eq_true, beq_iff_eq]
          exact ⟨hwq, by simpa using hne⟩
        · exact hall q hq hwq
      · rintro ⟨hacc, hall⟩
        exact ⟨hacc, fun q hq => hall q (Or.inr hq)⟩

/-- `significantImprovements` is empty exactly when no pairwise comparison
both names the prompt as overall winner and carries a non-empty
significant-differences list. -/
theorem significantImprovements_nil_iff (best : String)
    (l : List (String × Comparison)) :
    significantImprovements l best = [] ↔
      ∀ p ∈ l, p.2.overall_winner = best →
        p.2.significant_differences = [] := by
  unfold significantImprovements
  rw [sigImpFold_nil_iff]
  simp

/-- The confidence value before any gap downgrade is `"high"` exactly when
some pairwise comparison names the prompt as overall winner with a
non-empty significant-differences list, and `"medium"` otherwise. -/
theorem baseConfidence_iff (best : String) (l : List (String × Comparison)) :
    ((if (significantImprovements l best).isEmpty then "medium" else "high") = "high" ↔
      ∃ p ∈ l, p.2.overall_winner = best ∧ p.2.significant_differences ≠ []) ∧
    ((if (significantImprovements l best).isEmpty then "medium" else "high") = "high" ∨
      (if (significantImprovements l best).isEmpty then "medium" else "high") = "medium") := by
  constructor
  · rcases hcase : (significantImprovements l best).isEmpty with _ | _
    · have hne : significantImprovements l best ≠ [] := by
        intro hnil
        rw [hnil] at hcase
        cases hcase
      rw [if_neg (by decide)]
      constructor
      · intro _
        by_contra hnex
        push_neg at hnex
        exact hne ((significantImprovements_nil_iff best l).mpr
          fun p hp hw => hnex p hp hw)
      · intro _
        rfl
    · have hnil : significantImprovements l best = [] := List.isEmpty_iff.mp hcase
      have hall := (significantImprovements_nil_iff best l).mp hnil
      rw [if_pos rfl]
      constructor
      · intro hcontra
        exact absurd hcontra (by decide)
      · rintro ⟨p, hp, hw, hs⟩
        exact absurd (hall p hp hw) hs
  · rcases hcase : (significantImprovements l best).isEmpty <;> simp

/-- Claim C6: the recommendation names the top-ranked variant.  With no
runner-up, or with a composite-score gap of at least 0.05 to the
runner-up, the confidence is `"high"` exactly when the top variant appears
as `overall_winner` in some pairwise comparison with a non-empty
`significant_differences` list, and `"medium"` otherwise; whenever the gap
between the top two composite scores is below 0.05 the confidence is
`"low"` regardless, with the explanatory note attached. -/
theorem recommendation_confidence_tiers (cr : ComparisonResults)
    (best : String) (bs : ℚ) (rest : List (String × ℚ))
    (h : cr.overall_ranking = (best, bs) :: rest) :
    (generateRecommendation cr).recommended_prompt = some best ∧
    (rest = [] →
      ((generateRecommendation cr).confidence = some "high" ↔
        ∃ p ∈ cr.pairwise_comparisons,
          p.2.overall_winner = best ∧ p.2.significant_differences ≠ []) ∧
      ((generateRecommendation cr).confidence = some "high" ∨
        (generateRecommendation cr).confidence = some "medium")) ∧
    (∀ (sb : String) (ss : ℚ) (rest2 : List (String × ℚ)),
      rest = (sb, ss) :: rest2 →
      (¬ bs - ss < 1/20 →
        ((generateRecommendation cr).confidence = some "high" ↔
          ∃ p ∈ cr.pairwise_comparisons,
            p.2.overall_winner = best ∧ p.2.significant_differences ≠ []) ∧
        ((generateRecommendation cr).confidence = some "high" ∨
          (generateRecommendation cr).confidence = some "medium")) ∧
      (bs - ss < 1/20 →
        (generateRecommendation cr).confidence = some "low" ∧
        (generateRecommendation cr).note =
          some "Results are very close. Consider additional testing.")) := by
  have hbase := baseConfidence_iff best cr.pairwise_comparisons
  refine ⟨?_, ?_, ?_⟩
  · simp only [generateRecommendation, h]
    rcases rest with _ | ⟨⟨sb, ss⟩, rest2⟩
    · rfl
    · simp only [recommendationDowngrade]
      by_cases hgap : bs - ss < 1/20
      · rw [if_pos hgap]
      · rw [if_neg hgap]
  · intro hrest
    subst hrest
    simp only [generateRecommendation, h, recommendationDowngrade]
    refine ⟨?_, ?_⟩
    · constructor
      · intro hc
        exact hbase.1.mp (Option.some_inj.mp hc)
      · intro hex
        exact congrArg some (hbase.1.mpr hex)
    · rcases hbase.2 with h2 | h2
      · exact Or.inl (congrArg some h2)
      · exact Or.inr (congrArg some h2)
  · intro sb ss rest2 hrest
    subst hrest
    constructor
    · intro hgap
      simp only [generateRecommendation, h, recommendationDowngrade]
      rw [if_neg hgap]
      refine ⟨?_, ?_⟩
      · constructor
        · intro hc
          exact hbase.1.mp (Option.some_inj.mp hc)
        · intro hex
          exact congrArg some (hbase.1.mpr hex)
      · rcases hbase.2 with h2 | h2
        · exact Or.inl (congrArg some h2)
        · exact Or.inr (congrArg some h2)
    · intro hgap
      simp only [generateRecommendation, h, recommendationDowngrade]
      rw [if_pos hgap]
      exact ⟨rfl, rfl⟩

/-- Witness for `recommendation_confidence_tiers`: on the fixture the
recommendation names variant 1 with `"high"` confidence. -/
theorem recommendation_confidence_tiers_witness :
    (generateRecommendation sampleComparisonResults).recommended_prompt =
      some "prompt_1" ∧
    (generateRecommendation sampleComparisonResults).confidence =
      some "high" := by
  have tm := recommendation_confidence_tiers sampleComparisonResults
    "prompt_1" (1/2) [("prompt_2", 1/4)] rfl
  refine ⟨tm.1, ?_⟩
  refine ((tm.2.2 "prompt_2" (1/4) [] rfl).1 (by norm_num)).1.mpr ?_
  exact ⟨("prompt_1_vs_prompt_2",
    { prompt_a := "prompt_1", prompt_b := "prompt_2",
      metrics_comparison := [], overall_winner := "prompt_1",
      significant_differences := ["accuracy"] }),
    List.Mem.head _, rfl, by decide⟩

/-! Helper lemmas about degenerate statistical tests. -/

/-- A lookup misses when no entry carries the key. -/
theorem lookupEntry_eq_none (entries : List (String × ComparisonEntry))
    (k : String) (h : ∀ p ∈ entries, p.1 ≠ k) :
    lookupEntry entries k = none := by
  unfold lookupEntry
  have hfind : entries.find? (fun p => p.1 == k) = none := by
    rw [List.find?_eq_none]
    intro p hp
    simpa using h p hp
  rw [hfind]
  rfl

/-- Every entry the quality block produces carries the key `"quality"`. -/
theorem qualityComparison_key (ttest : List ℕ → List ℕ → Option ℚ) (sl : ℚ)
    (ma mb : PromptMetrics) (pa pb : String) :
    ∀ p ∈ (qualityComparison ttest sl ma mb pa pb).1, p.1 = "quality" := by
  intro p hp
  unfold qualityComparison at hp
  split at hp
  · split at hp
    · split at hp
      · simp at hp
        subst hp
        rfl
      · simp at hp
    · simp at hp
  · simp at hp

/-- Every entry the consistency block produces carries the key
`"consistency"`. -/
theorem consistencyComparison_key (ma mb : PromptMetrics) (pa pb : String) :
    ∀ p ∈ consistencyComparison ma mb pa pb, p.1 = "consistency" := by
  intro p hp
  unfold consistencyComparison at hp
  split at hp
  · simp at hp
    subst hp
    rfl
  · simp at hp

/-- Every entry a successful accuracy block produces carries the key
`"accuracy"`. -/
theorem accuracyComparison_key (chi2 : List (List ℤ) → Option ℚ) (sl : ℚ)
    (ma mb : PromptMetrics) (pa pb : String)
    (ap : List (String × ComparisonEntry) × List String)
    (hap : accuracyComparison chi2 sl ma mb pa pb = some ap) :
    ∀ p ∈ ap.1, p.1 = "accuracy" := by
  intro p hp
  unfold accuracyComparison at hap
  split at hap
  · split at hap
    · split at hap
      · dsimp only at hap
        split at hap
        · injection hap with hap
          subst hap
          simp at hp
          subst hp
          rfl
        · injection hap with hap
          subst hap
          simp at hp
      · cases hap
    · injection hap with hap
      subst hap
      simp at hp
  · injection hap with hap
    subst hap
    simp at hp

/-- With the chi-square oracle raising on the built contingency table, the
accuracy block is omitted (the `except` branch at line 236). -/
theorem accuracyComparison_degenerate (chi2 : List (List ℤ) → Option ℚ)
    (sl : ℚ) (ma mb : PromptMetrics) (pa pb : String) (ca ta cb tb : ℕ)
    (hca : ma.correct_count = some ca) (hta : ma.total_count = some ta)
    (hcb : mb.correct_count = some cb) (htb : mb.total_count = some tb)
    (hchi : chi2 [[(ca : ℤ), (ta : ℤ) - (ca : ℤ)],
      [(cb : ℤ), (tb : ℤ) - (cb : ℤ)]] = none) :
    accuracyComparison chi2 sl ma mb pa pb = some ([], []) := by
  unfold accuracyComparison
  simp only [hca, hta, hcb, htb]
  split
  · rw [hchi]
  · rfl

/-- With the t-test oracle raising on the two quality samples, the quality
block is omitted (the `except` branch at line 264). -/
theorem qualityComparison_degenerate (ttest : List ℕ → List ℕ → Option ℚ)
    (sl : ℚ) (ma mb : PromptMetrics) (pa pb : String) (sa sb : List ℕ)
    (hsa : ma.quality_scores = some sa) (hsb : mb.quality_scores = some sb)
    (htt : ttest sa sb = none) :
    qualityComparison ttest sl ma mb pa pb = ([], []) := by
  unfold qualityComparison
  simp only [hsa, hsb]
  by_cases hlen : (decide (sa.length > 0) && decide (sb.length > 0)) = true
  · rw [if_pos hlen, htt]
  · rw [if_neg hlen]

/-- Claim C4: on every pairwise comparison input on which a statistical test
is degenerate — the chi-square oracle raising on the built 2x2 contingency
table, or the t-test oracle raising on the two quality-score samples — the
comparator does not raise: it omits that metric's key from
`metrics_comparison` entirely and still produces the remaining metric
comparisons. -/
theorem degenerate_statistical_test_omitted (chi2 : List (List ℤ) → Option ℚ)
    (ttest : List ℕ → List ℕ → Option ℚ) (sl : ℚ) (ma mb : PromptMetrics)
    (pa pb : String) :
    (∀ ca ta cb tb : ℕ,
      ma.correct_count = some ca → ma.total_count = some ta →
      mb.correct_count = some cb → mb.total_count = some tb →
      chi2 [[(ca : ℤ), (ta : ℤ) - (ca : ℤ)],
        [(cb : ℤ), (tb : ℤ) - (cb : ℤ)]] = none →
      ∃ c : Comparison,
        compareTwoPrompts chi2 ttest sl ma mb pa pb = some c ∧
        c.metrics_comparison =
          (qualityComparison ttest sl ma mb pa pb).1 ++
            consistencyComparison ma mb pa pb ∧
        lookupEntry c.metrics_comparison "accuracy" = none) ∧
    (∀ sa sb : List ℕ,
      ma.quality_scores = some sa → mb.quality_scores = some sb →
      ttest sa sb = none →
      ∀ c : Comparison,
        compareTwoPrompts chi2 ttest sl ma mb pa pb = some c →
        c.metrics_comparison =
          (accuracyComparison chi2 sl ma mb pa pb).elim [] Prod.fst ++
            consistencyComparison ma mb pa pb ∧
        lookupEntry c.metrics_comparison "quality" = none) := by
  constructor
  · intro ca ta cb tb hca hta hcb htb hchi
    have hacc := accuracyComparison_degenerate chi2 sl ma mb pa pb
      ca ta cb tb hca hta hcb htb hchi
    rcases hcomp : compareTwoPrompts chi2 ttest sl ma mb pa pb with _ | c
    · unfold compareTwoPrompts at hcomp
      rw [hacc] at hcomp
      cases hcomp
    · unfold compareTwoPrompts at hcomp
      rw [hacc] at hcomp
      injection hcomp with hcomp
      subst hcomp
      refine ⟨_, rfl, ?_, ?_⟩
      · simp
      · apply lookupEntry_eq_none
        intro p hp
        simp only [List.nil_append] at hp
        rcases List.mem_append.mp hp with hp1 | hp1
        · rw [qualityComparison_key ttest sl ma mb pa pb p hp1]
          decide
        · rw [consistencyComparison_key ma mb pa pb p hp1]
          decide
  · intro sa sb hsa hsb htt c hc
    have hqd := qualityComparison_degenerate ttest sl ma mb pa pb sa sb hsa hsb htt
    unfold compareTwoPrompts at hc
    rcases hacc : accuracyComparison chi2 sl ma mb pa pb with _ | ap
    · rw [hacc] at hc
      cases hc
    · rw [hacc] at hc
      injection hc with hc
      subst hc
      constructor
      · simp [hqd, hacc]
      · apply lookupEntry_eq_none
        intro p hp
        simp only [hqd, List.append_nil, List.nil_append] at hp
        rcases List.mem_append.mp hp with hp1 | hp1
        · rw [accuracyComparison_key chi2 sl ma mb pa pb ap hacc p hp1]
          decide
        · rw [consistencyComparison_key ma mb pa pb p hp1]
          decide

/-- Witness for `degenerate_statistical_test_omitted`: both degenerate
cases at once, on the modelled scipy oracles.  Variant A and B are both
4-of-4 correct, so the contingency table `[[4,0],[4,0]]` has a zero
column and the chi-square model fails; the quality samples `[5,5,5,5]`
and `[3,3,3,3]` both have zero variance, so the t-test model fails; the
comparison still succeeds, omits both keys, and keeps the consistency
comparison. -/
theorem degenerate_statistical_test_omitted_witness :
    (compareTwoPrompts chi2ModelSpec ttestModelSpec (1/20)
      degenerateMetricsA degenerateMetricsB "prompt_1" "prompt_2").map
        (fun c => (lookupEntry c.metrics_comparison "accuracy",
          lookupEntry c.metrics_comparison "quality",
          (c.metrics_comparison.map Prod.fst))) =
      some (none, none, ["consistency"]) := by
  obtain ⟨c, hc, hm, hl⟩ :=
    (degenerate_statistical_test_omitted chi2ModelSpec ttestModelSpec (1/20)
      degenerateMetricsA degenerateMetricsB "prompt_1" "prompt_2").1
      4 4 4 4 rfl rfl rfl rfl (by decide)
  have hqd := qualityComparison_degenerate ttestModelSpec (1/20)
    degenerateMetricsA degenerateMetricsB "prompt_1" "prompt_2"
    [5, 5, 5, 5] [3, 3, 3, 3] rfl rfl (by decide)
  rw [hqd] at hm
  simp only [List.nil_append] at hm
  rw [hc]
  have hcons : consistencyComparison degenerateMetricsA degenerateMetricsB
      "prompt_1" "prompt_2" =
      [("consistency",
        { prompt_a_value := 9/10, prompt_b_value := 8/10,
          difference := 8/10 - 9/10,
          descriptive_winner := some "prompt_1" })] := by
    unfold consistencyComparison degenerateMetricsA degenerateMetricsB
    norm_num
  rw [hcons] at hm
  have hlq : lookupEntry c.metrics_comparison "quality" = none := by
    rw [hm]
    apply lookupEntry_eq_none
    intro p hp
    simp at hp
    subst hp
    decide
  rw [Option.map_some']
  rw [hl, hlq, hm]
  rfl

/-! Helper lemmas for the comparison pipeline precondition. -/

/-- On metrics produced by `extractMetrics` the accuracy block never hits
the uncaught `KeyError`: the accuracy and count keys are set together, so
`metrics_b` cannot have `accuracy` without its counts. -/
theorem accuracyComparison_extract_isSome (chi2 : List (List ℤ) → Option ℚ)
    (sl : ℚ) (la lb : List (String × MetricResult)) (pa pb : String) :
    (accuracyComparison chi2 sl (extractMetrics la) (extractMetrics lb)
      pa pb).isSome = true := by
  unfold accuracyComparison extractMetrics
  rcases hea : lookupResult la "exact_match" with _ | ra <;>
    rcases heb : lookupResult lb "exact_match" with _ | rb <;>
      simp only [Option.map_none', Option.map_some']
  · rfl
  · rfl
  · rfl
  · rcases chi2 [[((ra.correct.getD 0 : ℕ) : ℤ),
        ((ra.total.getD 0 : ℕ) : ℤ) - ((ra.correct.getD 0 : ℕ) : ℤ)],
      [((rb.correct.getD 0 : ℕ) : ℤ),
        ((rb.total.getD 0 : ℕ) : ℤ) - ((rb.correct.getD 0 : ℕ) : ℤ)]] with _ | p
    · rfl
    · rfl

/-- On extracted metrics `_compare_two_prompts` always succeeds. -/
theorem compareTwoPrompts_extract_isSome (chi2 : List (List ℤ) → Option ℚ)
    (ttest : List ℕ → List ℕ → Option ℚ) (sl : ℚ)
    (la lb : List (String × MetricResult)) (pa pb : String) :
    (compareTwoPrompts chi2 ttest sl (extractMetrics la) (extractMetrics lb)
      pa pb).isSome = true := by
  unfold compareTwoPrompts
  rcases hacc : accuracyComparison chi2 sl (extractMetrics la)
      (extractMetrics lb) pa pb with _ | ap
  · have hs := accuracyComparison_extract_isSome chi2 sl la lb pa pb
    rw [hacc] at hs
    cases hs
  · rfl

/-- A `mapM` over `Option` succeeds when every element does. -/
theorem mapM_option_isSome {α β : Type} (f : α → Option β) (l : List α)
    (h : ∀ x ∈ l, (f x).isSome = true) : (l.mapM f).isSome = true := by
  induction l with
  | nil => rfl
  | cons x xs ih =>
    rw [List.mapM_cons]
    rcases hf : f x with _ | b
    · have hx := h x (List.mem_cons_self x xs)
      rw [hf] at hx
      cases hx
    · rcases hm : xs.mapM f with _ | bs
      · have hxs := ih fun y hy => h y (List.mem_cons_of_mem x hy)
        rw [hm] at hxs
        cases hxs
      · simp [hf, hm]

/-- Both components of an ordered pair come from the underlying list. -/
theorem mem_orderedPairs {α : Type} (l : List α) (pq : α × α)
    (h : pq ∈ orderedPairs l) : pq.1 ∈ l ∧ pq.2 ∈ l := by
  induction l with
  | nil => simp [orderedPairs] at h
  | cons x xs ih =>
    simp only [orderedPairs, List.mem_append, List.mem_map] at h
    rcases h with ⟨y, hy, hxy⟩ | h
    · rw [← hxy]
      exact ⟨List.mem_cons_self x xs, List.mem_cons_of_mem x hy⟩
    · obtain ⟨h1, h2⟩ := ih h
      exact ⟨List.mem_cons_of_mem x h1, List.mem_cons_of_mem x h2⟩

/-- The statistical comparison stage always succeeds on results produced
by the evaluation pipeline. -/
theorem performStatisticalComparison_isSome (chi2 : List (List ℤ) → Option ℚ)
    (ttest : List ℕ → List ℕ → Option ℚ) (sl : ℚ)
    (prompt_results : List (String × List (String × MetricResult))) :
    (performStatisticalComparison chi2 ttest sl prompt_results).isSome = true := by
  unfold performStatisticalComparison
  rw [Option.isSome_map']
  apply mapM_option_isSome
  intro pq hpq
  obtain ⟨h1, h2⟩ := mem_orderedPairs _ _ hpq
  obtain ⟨q1, hq1, he1⟩ := List.mem_map.mp h1
  obtain ⟨q2, hq2, he2⟩ := List.mem_map.mp h2
  rw [Option.isSome_map', ← he1, ← he2]
  exact compareTwoPrompts_extract_isSome chi2 ttest sl q1.2 q2.2 q1.1 q2.1

/-- Claim C10: with fewer than two prompt paths `compare_prompts` raises the
`ValueError` `"Need at least 2 prompts to compare"` before any prompt is
evaluated — the outcome does not depend on the evaluation oracle at all —
and with at least two paths the precondition check passes and the
pipeline runs to a successful result. -/
theorem compare_prompts_requires_two
    (ev1 ev2 : String → List (String × MetricResult))
    (chi2 : List (List ℤ) → Option ℚ) (ttest : List ℕ → List ℕ → Option ℚ)
    (sl : ℚ) (prompt_paths : List String) :
    (prompt_paths.length < 2 →
      comparePrompts ev1 chi2 ttest sl prompt_paths =
        Except.error "Need at least 2 prompts to compare" ∧
      comparePrompts ev1 chi2 ttest sl prompt_paths =
        comparePrompts ev2 chi2 ttest sl prompt_paths) ∧
    (2 ≤ prompt_paths.length →
      exceptIsOk (comparePrompts ev1 chi2 ttest sl prompt_paths) = true) := by
  constructor
  · intro hlen
    unfold comparePrompts
    rw [if_pos hlen, if_pos hlen]
    exact ⟨rfl, rfl⟩
  · intro hlen
    unfold comparePrompts
    rw [if_neg (not_lt.mpr hlen)]
    dsimp only
    have hps := performStatisticalComparison_isSome chi2 ttest sl
      (prompt_paths.enum.map fun p => ("prompt_" ++ toString (p.1 + 1), ev1 p.2))
    rcases hres : performStatisticalComparison chi2 ttest sl
        (prompt_paths.enum.map fun p => ("prompt_" ++ toString (p.1 + 1), ev1 p.2))
      with _ | cr
    · rw [hres] at hps
      cases hps
    · rw [hres]
      rfl

/-- Witness for `compare_prompts_requires_two`: one path raises the
`ValueError`; two paths produce a successful comparison. -/
theorem compare_prompts_requires_two_witness :
    comparePrompts (fun _ => []) (fun _ => none) (fun _ _ => none) (1/20)
      ["prompts/variant_1.md"] =
      Except.error "Need at least 2 prompts to compare" ∧
    exceptIsOk (comparePrompts (fun _ => []) (fun _ => none) (fun _ _ => none)
      (1/20) ["prompts/variant_1.md", "prompts/variant_2.md"]) = true :=
  ⟨((compare_prompts_requires_two (fun _ => []) (fun _ => [])
      (fun _ => none) (fun _ _ => none) (1/20) ["prompts/variant_1.md"]).1
      (by decide)).1,
   (compare_prompts_requires_two (fun _ => []) (fun _ => [])
      (fun _ => none) (fun _ _ => none) (1/20)
      ["prompts/variant_1.md", "prompts/variant_2.md"]).2 (by decide)⟩

/-- Witness for `exact_match_accuracy_range`: on a single matching record
the accuracy is within `[0,1]`. -/
theorem exact_match_accuracy_range_witness :
    0 ≤ (evaluateExactMatch (85/100)
      [⟨"Paris", some "paris", false⟩]).accuracy.getD 0 ∧
    (evaluateExactMatch (85/100)
      [⟨"Paris", some "paris", false⟩]).accuracy.getD 0 ≤ 1 :=
  ⟨(exact_match_accuracy_range (85/100) [⟨"Paris", some "paris", false⟩]).1,
   (exact_match_accuracy_range (85/100) [⟨"Paris", some "paris", false⟩]).2.1⟩

end Voyager
